import Mathlib

/-!
Shallow embedding of the OGC protocol layer of the esda-web-mapping
boilerplate backend (src/backend/app): the WMS/WFS request validation,
bbox parsing, GetMap/GetFeature processing and content negotiation found in
`app/services/ogc_services.py`, `app/utils/geospatial.py` and
`app/api/v1/endpoints_ogc.py`.

Python `float` values originating from decimal literals and from parsed
decimal strings are modelled exactly as rationals (the decimal values that the
source compares are far apart relative to double-precision rounding, so every
comparison made by the code has the same outcome in both models).  Digits and
whitespace in the model of Python `float(str)` are ASCII, and the exotic
`inf`/`nan` spellings are kept as explicit constructors.
-/

deriving instance DecidableEq for Except

/-- Value of a Python `float`: a finite value (modelled as an exact rational),
a signed infinity, or NaN. -/
inductive PyFloat where
  | finite (q : ℚ)
  | inf (neg : Bool)
  | nan
deriving DecidableEq, Repr

/-- Python `<=` on floats (IEEE-754 ordering): NaN compares false with
everything, `-inf` below all non-NaN values, `+inf` above them. -/
def PyFloat.le : PyFloat → PyFloat → Bool
  | .nan, _ => false
  | _, .nan => false
  | .inf true, _ => true
  | .inf false, .inf false => true
  | .inf false, _ => false
  | .finite _, .inf false => true
  | .finite _, .inf true => false
  | .finite a, .finite b => decide (a ≤ b)

/-- ASCII whitespace stripped by Python `str.strip()` before float parsing. -/
def isPyWs (c : Char) : Bool :=
  c = ' ' || c = '\t' || c = '\n' || c = '\r' || c.toNat = 11 || c.toNat = 12

/-- Strip leading and trailing whitespace from a character list. -/
def pyStrip (l : List Char) : List Char :=
  ((l.dropWhile isPyWs).reverse.dropWhile isPyWs).reverse

/-- Consume a maximal run of ASCII digits in which single underscores may
stand between two digits (the CPython numeric-literal rule).  Returns the
accumulated value, the number of digits consumed and the remaining input. -/
def parseUDigitsAux (acc nd : Nat) : List Char → Nat × Nat × List Char
  | [] => (acc, nd, [])
  | c :: cs =>
    if '0' ≤ c ∧ c ≤ '9' then
      parseUDigitsAux (acc * 10 + (c.toNat - 48)) (nd + 1) cs
    else if c = '_' ∧ 0 < nd then
      match cs with
      | [] => (acc, nd, [c])
      | d :: cs2 =>
        if '0' ≤ d ∧ d ≤ '9' then
          parseUDigitsAux (acc * 10 + (d.toNat - 48)) (nd + 1) cs2
        else (acc, nd, c :: d :: cs2)
    else (acc, nd, c :: cs)

/-- Digit-run consumption starting from empty accumulators. -/
def parseUDigits (l : List Char) : Nat × Nat × List Char :=
  parseUDigitsAux 0 0 l

/-- Assemble the rational value of a parsed decimal float:
sign, integer part, fractional digits and signed decimal exponent. -/
def ratOfParts (neg : Bool) (ip fp fd : Nat) (eNeg : Bool) (ev : Nat) : ℚ :=
  let m : Nat := ip * Nat.pow 10 fd + fp
  let scaledNum : Nat := m * (if eNeg then 1 else Nat.pow 10 ev)
  let den : Nat := Nat.pow 10 fd * (if eNeg then Nat.pow 10 ev else 1)
  let num : Int := if neg then -(Int.ofNat scaledNum) else Int.ofNat scaledNum
  mkRat num den

/-- Parse the numeric part of a Python float literal (after sign removal):
`[digits][.digits][(e|E)[sign]digits]` with at least one mantissa digit and at
least one exponent digit when an exponent marker is present; nothing may
remain unconsumed. -/
def parseNumTail (neg : Bool) (l : List Char) : Option PyFloat :=
  let p1 := parseUDigits l
  let afterInt := p1.2.2
  let fracPart :=
    match afterInt with
    | '.' :: rest => parseUDigits rest
    | _ => (0, 0, afterInt)
  if p1.2.1 + fracPart.2.1 = 0 then none
  else
    match fracPart.2.2 with
    | [] => some (.finite (ratOfParts neg p1.1 fracPart.1 fracPart.2.1 false 0))
    | e :: rest =>
      if e = 'e' ∨ e = 'E' then
        let signedRest :=
          match rest with
          | '+' :: r => (false, r)
          | '-' :: r => (true, r)
          | r => (false, r)
        let p3 := parseUDigits signedRest.2
        if p3.2.1 = 0 then none
        else
          match p3.2.2 with
          | [] => some (.finite (ratOfParts neg p1.1 fracPart.1 fracPart.2.1 signedRest.1 p3.1))
          | _ => none
      else none

/-- Model of Python `float(s)` on strings: strip whitespace, take an optional
sign, then either a case-insensitive `inf`/`infinity`/`nan` spelling or a
decimal literal.  `none` models `ValueError`. -/
def pyFloatOfString (s : String) : Option PyFloat :=
  let l := pyStrip s.data
  match l with
  | [] => none
  | _ =>
    let signedBody :=
      match l with
      | '+' :: r => (false, r)
      | '-' :: r => (true, r)
      | r => (false, r)
    let lb := signedBody.2.map Char.toLower
    if lb = "inf".data ∨ lb = "infinity".data then some (.inf signedBody.1)
    else if lb = "nan".data then some .nan
    else parseNumTail signedBody.1 signedBody.2

/-- Helper for comma splitting: accumulate the current token (reversed) while
walking the remaining characters. -/
def splitCommaAux (cur : List Char) : List Char → List String
  | [] => [String.mk cur.reverse]
  | c :: cs =>
    if c = ',' then String.mk cur.reverse :: splitCommaAux [] cs
    else splitCommaAux (c :: cur) cs

/-- Python `s.split(",")`: the comma-separated tokens of `s`; the empty string
yields one empty token. -/
def pySplitComma (s : String) : List String :=
  splitCommaAux [] s.data

/-- The list comprehension `[float(x) for x in bbox_str.split(",")]`:
convert tokens left to right, aborting at the first `ValueError`. -/
def mapFloats : List String → Option (List PyFloat)
  | [] => some []
  | t :: ts =>
    match pyFloatOfString t, mapFloats ts with
    | some v, some vs => some (v :: vs)
    | _, _ => none

/-- `app/utils/geospatial.py`, `parse_bbox_string`: split on commas, convert
every token with `float`, then require exactly 4 values; both failure modes
raise the same `ValueError` message (modelled as the `Except.error` string). -/
def parse_bbox_string (bbox_str : String) : Except String (List PyFloat) :=
  match mapFloats (pySplitComma bbox_str) with
  | Option.none =>
    .error ("Invalid bbox format: " ++ bbox_str ++
      ". Expected format: min_lon,min_lat,max_lon,max_lat")
  | Option.some bbox =>
    if bbox.length ≠ 4 then
      .error ("Invalid bbox format: " ++ bbox_str ++
        ". Expected format: min_lon,min_lat,max_lon,max_lat")
    else .ok bbox

/-- Whether the first list occurs at the head of the second. -/
def startsWithL : List Char → List Char → Bool
  | [], _ => true
  | _ :: _, [] => false
  | a :: as, b :: bs => a == b && startsWithL as bs

/-- Whether the first list occurs contiguously anywhere in the second. -/
def occursInL (needle : List Char) : List Char → Bool
  | [] => startsWithL needle []
  | b :: bs => startsWithL needle (b :: bs) || occursInL needle bs

/-- Python `needle in hay` on strings: contiguous substring containment. -/
def pyStrIn (needle hay : String) : Bool :=
  occursInL needle.data hay.data

/-- Python truthiness of an `Optional[str]`: `None` and the empty string are
falsy. -/
def pyTruthyStr : Option String → Bool
  | Option.none => false
  | Option.some s => s != ""

/-- Python slice `xs[:c]` for an `int` bound `c`: a nonnegative bound takes
the first `c` elements, a negative bound stops `|c|` before the end
(clamped at zero). -/
def pySliceTo {α : Type} (xs : List α) (c : Int) : List α :=
  if 0 ≤ c then xs.take c.toNat
  else xs.take (xs.length - (-c).toNat)

/-!  Data model: `app/models/ogc_models.py`, `app/models/geojson_models.py`
and the static sample data of `app/services/ogc_services.py`. -/

/-- `OGCException` (`app/models/ogc_models.py`) and the payload of
`OGCServiceException` (`app/services/ogc_services.py`): code, message text and
optional locator. -/
structure OGCException where
  exception_code : String
  exception_text : String
  locator : Option String
deriving DecidableEq, Repr

/-- `SUPPORTED_CRS` from `app/services/ogc_services.py`. -/
def SUPPORTED_CRS : List String :=
  [ "EPSG:4326", "EPSG:3857", "EPSG:3395", "CRS:84"]

/-- `SUPPORTED_WMS_FORMATS` from `app/services/ogc_services.py`. -/
def SUPPORTED_WMS_FORMATS : List String :=
  [ "image/png", "image/jpeg", "image/gif", "image/tiff"]

/-- `SUPPORTED_WFS_FORMATS` from `app/services/ogc_services.py`. -/
def SUPPORTED_WFS_FORMATS : List String :=
  [ "application/json", "application/gml+xml", "text/xml", "csv"]

/-- A property value in a feature's property map (the sample data only uses
strings and integers). -/
inductive PropV where
  | s (v : String)
  | i (v : Int)
deriving DecidableEq, Repr

/-- `GeoJSONGeometry`: the sample data uses Point (one lon/lat pair) and
Polygon (a list of rings) geometries; the `type` tag is the constructor. -/
inductive Geometry where
  | point (lon lat : ℚ)
  | polygon (rings : List (List (ℚ × ℚ)))
deriving DecidableEq, Repr

/-- Whether the geometry's `type` tag is `"Point"`. -/
def Geometry.isPoint : Geometry → Bool
  | .point _ _ => true
  | _ => false

/-- `GeoJSONFeature` (`app/models/geojson_models.py`): type tag, geometry and
property map. -/
structure GeoJSONFeature where
  type : String
  geometry : Geometry
  properties : List (String × PropV)
deriving DecidableEq, Repr

/-- `GeoJSONFeatureCollection` (`app/models/geojson_models.py`). -/
structure GeoJSONFeatureCollection where
  type : String
  features : List GeoJSONFeature
deriving DecidableEq, Repr

/-- `WMSGetMapRequest` (`app/models/ogc_models.py`). -/
structure WMSGetMapRequest where
  service : String
  version : String
  layers : String
  styles : String
  crs : String
  bbox : String
  width : Int
  height : Int
  format : String
  transparent : Bool
deriving DecidableEq, Repr

/-- `WFSGetFeatureRequest` (`app/models/ogc_models.py`). -/
structure WFSGetFeatureRequest where
  service : String
  version : String
  type_names : String
  count : Option Int
  bbox : Option String
  crs : Option String
  output_format : String
deriving DecidableEq, Repr

/-- Sample feature "Empire State Building" (`WFSService.get_feature`),
decimal coordinate literals taken exactly. -/
def empireStateBuilding : GeoJSONFeature :=
  { type := "Feature"
    geometry := .point (mkRat (-73985428) 1000000) (mkRat 40748817 1000000)
    properties :=
      [ ("id", .i 1), ("name", .s "Empire State Building"),
        ("category", .s "landmark"),
        ("description", .s "Famous skyscraper in New York City")] }

/-- Sample feature "Statue of Liberty" (`WFSService.get_feature`). -/
def statueOfLiberty : GeoJSONFeature :=
  { type := "Feature"
    geometry := .point (mkRat (-74013961) 1000000) (mkRat 40704543 1000000)
    properties :=
      [ ("id", .i 2), ("name", .s "Statue of Liberty"),
        ("category", .s "landmark"),
        ("description", .s "Famous statue in New York Harbor")] }

/-- Sample feature "Manhattan" (`WFSService.get_feature`), a Polygon. -/
def manhattanBoundary : GeoJSONFeature :=
  { type := "Feature"
    geometry := .polygon
      [ [ (mkRat (-740259) 10000, mkRat 407127 10000),
          (mkRat (-739397) 10000, mkRat 407127 10000),
          (mkRat (-739397) 10000, mkRat 407903 10000),
          (mkRat (-740259) 10000, mkRat 407903 10000),
          (mkRat (-740259) 10000, mkRat 407127 10000)] ]
    properties :=
      [ ("id", .i 1), ("name", .s "Manhattan"), ("level", .i 2),
        ("population", .i 1628706)] }

/-- The sample-feature selection in `WFSService.get_feature`
(`if "points_of_interest" in request.type_names: ...` then
`if "boundaries" in request.type_names: ...`): Python substring containment
on the raw `type_names` string, points-of-interest block first. -/
def sampleFeatures (type_names : String) : List GeoJSONFeature :=
  (if pyStrIn "points_of_interest" type_names then
    [ empireStateBuilding, statueOfLiberty] else [])
    ++ (if pyStrIn "boundaries" type_names then [ manhattanBoundary] else [])

/-- The point-in-bbox test written in the filter loop of
`WFSService.get_feature`: for a `"Point"` geometry,
`bbox[0] <= lon <= bbox[2] and bbox[1] <= lat <= bbox[3]`
(float comparisons, bounds inclusive); every other geometry is kept.
The running loop never actually reaches this test on a model-typed geometry
(see `bboxFilterLoop`). -/
def bboxKeep (bbox : List PyFloat) (f : GeoJSONFeature) : Bool :=
  match f.geometry with
  | .point lon lat =>
    PyFloat.le (bbox.getD 0 .nan) (.finite lon)
      && PyFloat.le (.finite lon) (bbox.getD 2 .nan)
      && PyFloat.le (bbox.getD 1 .nan) (.finite lat)
      && PyFloat.le (.finite lat) (bbox.getD 3 .nan)
  | _ => true

/-- The bbox filter loop of `WFSService.get_feature` as it actually executes:
for each feature it evaluates `geom = feature.geometry; geom["type"]`, but
`feature.geometry` is a pydantic `GeoJSONGeometry` model and subscripting it
raises `TypeError`.  The loop therefore completes only on an empty feature
list; with any feature present the first iteration raises (the message is the
`Except.error` payload). -/
def bboxFilterLoop (bbox : List PyFloat) (fs : List GeoJSONFeature) :
    Except String (List GeoJSONFeature) :=
  match bbox, fs with
  | _, [] => .ok []
  | _, _ :: _ => .error "\x27GeoJSONGeometry\x27 object is not subscriptable"

/-- The count limiting step of `WFSService.get_feature`:
`if request.count and len(features) > request.count: features = features[:request.count]`.
`request.count` is truthy only when present and nonzero. -/
def applyCount (count : Option Int) (fs : List GeoJSONFeature) :
    List GeoJSONFeature :=
  match count with
  | Option.none => fs
  | Option.some c =>
    if c ≠ 0 ∧ (fs.length : Int) > c then pySliceTo fs c else fs

namespace WMSService

/-- `WMSService.get_map` (`app/services/ogc_services.py`): CRS allow-list
check, format allow-list check, bbox parse (a `ValueError` there is caught by
the broad handler and re-raised as `OperationProcessingFailed` at locator
`"GetMap"`), then the placeholder payload is returned. -/
def get_map (request : WMSGetMapRequest) : Except OGCException String :=
  if request.crs ∉ SUPPORTED_CRS then
    .error
      { exception_code := "InvalidCRS",
        exception_text := "Unsupported CRS: " ++ request.crs,
        locator := Option.some "GetMap" }
  else if request.format ∉ SUPPORTED_WMS_FORMATS then
    .error
      { exception_code := "InvalidFormat",
        exception_text := "Unsupported format: " ++ request.format,
        locator := Option.some "GetMap" }
  else
    match parse_bbox_string request.bbox with
    | .error msg =>
      .error
        { exception_code := "OperationProcessingFailed",
          exception_text := "Error processing GetMap request: " ++ msg,
          locator := Option.some "GetMap" }
    | .ok _ => .ok "WMS GetMap response would be an image"

end WMSService

namespace WFSService

/-- `WFSService.get_feature` (`app/services/ogc_services.py`): optional-CRS
allow-list check (skipped for a falsy `crs`), output-format allow-list check,
optional bbox parse (skipped for a falsy `bbox`), sample-feature selection by
substring, the (raising) bbox filter loop, then count limiting.  Each escaped
exception that is not an `OGCServiceException` is wrapped as
`OperationProcessingFailed` at locator `"GetFeature"`. -/
def get_feature (request : WFSGetFeatureRequest) :
    Except OGCException GeoJSONFeatureCollection :=
  if pyTruthyStr request.crs ∧ request.crs.getD "" ∉ SUPPORTED_CRS then
    .error
      { exception_code := "InvalidCRS",
        exception_text := "Unsupported CRS: " ++ request.crs.getD "",
        locator := Option.some "GetFeature" }
  else if request.output_format ∉ SUPPORTED_WFS_FORMATS then
    .error
      { exception_code := "InvalidFormat",
        exception_text := "Unsupported format: " ++ request.output_format,
        locator := Option.some "GetFeature" }
  else if pyTruthyStr request.bbox then
    match parse_bbox_string (request.bbox.getD "") with
    | .error msg =>
      .error
        { exception_code := "OperationProcessingFailed",
          exception_text := "Error processing GetFeature request: " ++ msg,
          locator := Option.some "GetFeature" }
    | .ok bb =>
      match bboxFilterLoop bb (sampleFeatures request.type_names) with
      | .error msg =>
        .error
          { exception_code := "OperationProcessingFailed",
            exception_text := "Error processing GetFeature request: " ++ msg,
            locator := Option.some "GetFeature" }
      | .ok fs =>
        .ok { type := "FeatureCollection", features := applyCount request.count fs }
  else
    .ok
      { type := "FeatureCollection",
        features := applyCount request.count (sampleFeatures request.type_names) }

end WFSService

/-!  Serialization (pydantic `.dict()`) and the HTTP endpoints of
`app/api/v1/endpoints_ogc.py`. -/

/-- A Python JSON-like value as produced by pydantic `.dict()`. -/
inductive Json where
  | str (s : String)
  | int (n : Int)
  | rat (q : ℚ)
  | arr (xs : List Json)
  | obj (kvs : List (String × Json))

/-- Property values serialize to their JSON counterparts. -/
def PropV.toJson : PropV → Json
  | .s v => .str v
  | .i v => .int v

/-- `GeoJSONGeometry.dict()`: the `type` tag and the coordinate array. -/
def Geometry.toJson : Geometry → Json
  | .point lon lat =>
    .obj [ ("type", .str "Point"), ("coordinates", .arr [.rat lon, .rat lat])]
  | .polygon rings =>
    .obj
      [ ("type", .str "Polygon"),
        ("coordinates", .arr (rings.map (fun ring =>
          .arr (ring.map (fun p => .arr [.rat p.1, .rat p.2])))))]

/-- `GeoJSONFeature.dict()`. -/
def GeoJSONFeature.dict (f : GeoJSONFeature) : Json :=
  .obj
    [ ("type", .str f.type), ("geometry", f.geometry.toJson),
      ("properties", .obj (f.properties.map (fun kv => (kv.1, kv.2.toJson))))]

/-- `GeoJSONFeatureCollection.dict()`. -/
def GeoJSONFeatureCollection.dict (fc : GeoJSONFeatureCollection) : Json :=
  .obj
    [ ("type", .str fc.type),
      ("features", .arr (fc.features.map GeoJSONFeature.dict))]

/-- Wire format chosen by content negotiation. -/
inductive WireFormat where
  | xml
  | json
deriving DecidableEq, Repr

/-- Body of a capabilities-endpoint response: a capability document for the
given service family, or an exception document. -/
inductive CapBody where
  | wmsCapabilities (version : String)
  | wfsCapabilities (version : String)
  | exception (e : OGCException)
deriving DecidableEq, Repr

/-- Response of a capabilities endpoint: HTTP status, negotiated wire format
and body. -/
structure CapHttpResponse where
  status : Nat
  format : WireFormat
  body : CapBody
deriving DecidableEq, Repr

/-- Success-path negotiation in `wms_get_capabilities` / `wfs_get_capabilities`
(`endpoints_ogc.py` lines 66-76 and 226-236): `wants_xml` starts true and is
cleared only when a truthy `Accept` header contains `application/json` and
does not contain `application/xml`. -/
def capSuccessFormat (accept : Option String) : WireFormat :=
  let wants_xml :=
    if pyTruthyStr accept then
      if pyStrIn "application/json" (accept.getD "")
          && !(pyStrIn "application/xml" (accept.getD "")) then false
      else true
    else true
  if wants_xml then .xml else .json

/-- Exception-path negotiation in the same endpoints (lines 78-94 and
238-254): JSON whenever the `Accept` header is truthy and contains
`application/json`, with no look at `application/xml`. -/
def capExceptionFormat (accept : Option String) : WireFormat :=
  if pyTruthyStr accept && pyStrIn "application/json" (accept.getD "") then
    .json
  else .xml

/-- The 400 exception response of a capabilities endpoint. -/
def capExceptionResponse (accept : Option String) (e : OGCException) :
    CapHttpResponse :=
  { status := 400, format := capExceptionFormat accept, body := .exception e }

/-- `wms_get_capabilities` endpoint (`GET /wms`): service then request-type
validation, static capability generation, then success-path negotiation. -/
def wms_get_capabilities (service request_type : String)
    (accept : Option String) : CapHttpResponse :=
  if service ≠ "WMS" then
    capExceptionResponse accept
      { exception_code := "InvalidParameterValue",
        exception_text := "Invalid service: " ++ service,
        locator := Option.some "service" }
  else if request_type ≠ "GetCapabilities" then
    capExceptionResponse accept
      { exception_code := "InvalidParameterValue",
        exception_text := "Invalid request: " ++ request_type,
        locator := Option.some "request" }
  else
    { status := 200, format := capSuccessFormat accept,
      body := .wmsCapabilities "1.3.0" }

/-- `wfs_get_capabilities` endpoint (`GET /wfs`): same structure as the WMS
one with the WFS service family. -/
def wfs_get_capabilities (service request_type : String)
    (accept : Option String) : CapHttpResponse :=
  if service ≠ "WFS" then
    capExceptionResponse accept
      { exception_code := "InvalidParameterValue",
        exception_text := "Invalid service: " ++ service,
        locator := Option.some "service" }
  else if request_type ≠ "GetCapabilities" then
    capExceptionResponse accept
      { exception_code := "InvalidParameterValue",
        exception_text := "Invalid request: " ++ request_type,
        locator := Option.some "request" }
  else
    { status := 200, format := capSuccessFormat accept,
      body := .wfsCapabilities "2.0.0" }

/-- Response of the GetMap endpoint: a streamed payload with the requested
content type, or a JSON exception document with an HTTP status. -/
inductive MapHttpResponse where
  | stream (contentType : String) (data : String)
  | jsonError (status : Nat) (e : OGCException)
deriving DecidableEq, Repr

/-- `wms_get_map` endpoint (`GET /wms/map`): service and request-type
validation, then `WMSService.get_map`; every `OGCServiceException` becomes a
400 JSON exception document (no content negotiation on this endpoint). -/
def wms_get_map (service version request_type layers styles crs bbox : String)
    (width height : Int) (format : String) (transparent : Bool) :
    MapHttpResponse :=
  if service ≠ "WMS" then
    .jsonError 400
      { exception_code := "InvalidParameterValue",
        exception_text := "Invalid service: " ++ service,
        locator := Option.some "service" }
  else if request_type ≠ "GetMap" then
    .jsonError 400
      { exception_code := "InvalidParameterValue",
        exception_text := "Invalid request: " ++ request_type,
        locator := Option.some "request" }
  else
    match WMSService.get_map
        { service := service, version := version, layers := layers,
          styles := styles, crs := crs, bbox := bbox, width := width,
          height := height, format := format, transparent := transparent } with
    | .error e => .jsonError 400 e
    | .ok data => .stream format data

/-- Response of the GetFeature endpoint: a JSON body (FastAPI serializes the
returned dict with status 200), or a JSON exception document with a status. -/
inductive FeatureHttpResponse where
  | okBody (body : Json)
  | jsonError (status : Nat) (e : OGCException)

/-- `wfs_get_feature` endpoint (`GET /wfs/feature`): service and request-type
validation, `WFSService.get_feature`, then the response body: both branches of
`if output_format == "application/json"` return `feature_collection.dict()`
(the non-JSON branch is a placeholder). -/
def wfs_get_feature (service version request_type type_names : String)
    (count : Option Int) (bbox crs : Option String) (output_format : String) :
    FeatureHttpResponse :=
  if service ≠ "WFS" then
    .jsonError 400
      { exception_code := "InvalidParameterValue",
        exception_text := "Invalid service: " ++ service,
        locator := Option.some "service" }
  else if request_type ≠ "GetFeature" then
    .jsonError 400
      { exception_code := "InvalidParameterValue",
        exception_text := "Invalid request: " ++ request_type,
        locator := Option.some "request" }
  else
    match WFSService.get_feature
        { service := service, version := version, type_names := type_names,
          count := count, bbox := bbox, crs := crs,
          output_format := output_format } with
    | .error e => .jsonError 400 e
    | .ok fc =>
      .okBody (if output_format = "application/json" then fc.dict else fc.dict)

/-!  Helper lemmas. -/

/-- Token conversion succeeds exactly when every token converts. -/
theorem mapFloats_isSome (l : List String) :
    (mapFloats l).isSome = l.all (fun t => (pyFloatOfString t).isSome) := by
  induction l with
  | nil => rfl
  | cons t ts ih =>
    simp only [mapFloats, List.all_cons]
    cases h : pyFloatOfString t with
    | none => simp [h]
    | some v =>
      cases h2 : mapFloats ts with
      | none => simp [h, h2] at ih ⊢; exact ih
      | some vs => simp [h, h2] at ih ⊢; exact ih

/-- Successful token conversion preserves the token count. -/
theorem mapFloats_length {l : List String} {b : List PyFloat}
    (h : mapFloats l = some b) : b.length = l.length := by
  induction l generalizing b with
  | nil => cases h; rfl
  | cons t ts ih =>
    simp only [mapFloats] at h
    cases h1 : pyFloatOfString t with
    | none => rw [h1] at h; cases h
    | some v =>
      rw [h1] at h
      cases h2 : mapFloats ts with
      | none => rw [h2] at h; cases h
      | some vs =>
        rw [h2] at h
        cases h
        simp [ih h2]

/-- Positive truncation bounds are exactly `List.take`. -/
theorem applyCount_pos (c : Int) (fs : List GeoJSONFeature) (hc : 0 < c) :
    applyCount (Option.some c) fs = fs.take c.toNat := by
  simp only [applyCount]
  by_cases h : (fs.length : Int) > c
  · rw [if_pos ⟨by omega, h⟩]
    simp only [pySliceTo]
    rw [if_pos (le_of_lt hc)]
  · rw [if_neg (by omega)]
    have hlen : fs.length ≤ c.toNat := by omega
    exact (List.take_of_length_le hlen).symm

/-!  Claims. -/

/-- C5: every OGC endpoint validates fail-fast in a fixed order: a `service`
mismatch yields `InvalidParameterValue` at locator `"service"` (HTTP 400)
regardless of every other parameter; with `service` correct, a `request`
mismatch yields `InvalidParameterValue` at locator `"request"`; only then do
domain checks run.  Concretely, `service=WFS` sent to the WMS GetCapabilities
endpoint yields 400 / `InvalidParameterValue` / `"service"`. -/
theorem C5_fail_fast_validation :
    (∀ (service request_type : String) (accept : Option String),
      service ≠ "WMS" →
        wms_get_capabilities service request_type accept
          = { status := 400, format := capExceptionFormat accept,
              body := .exception
                { exception_code := "InvalidParameterValue",
                  exception_text := "Invalid service: " ++ service,
                  locator := Option.some "service" } })
  ∧ (∀ (request_type : String) (accept : Option String),
      request_type ≠ "GetCapabilities" →
        wms_get_capabilities "WMS" request_type accept
          = { status := 400, format := capExceptionFormat accept,
              body := .exception
                { exception_code := "InvalidParameterValue",
                  exception_text := "Invalid request: " ++ request_type,
                  locator := Option.some "request" } })
  ∧ (∀ (service request_type : String) (accept : Option String),
      service ≠ "WFS" →
        wfs_get_capabilities service request_type accept
          = { status := 400, format := capExceptionFormat accept,
              body := .exception
                { exception_code := "InvalidParameterValue",
                  exception_text := "Invalid service: " ++ service,
                  locator := Option.some "service" } })
  ∧ (∀ (request_type : String) (accept : Option String),
      request_type ≠ "GetCapabilities" →
        wfs_get_capabilities "WFS" request_type accept
          = { status := 400, format := capExceptionFormat accept,
              body := .exception
                { exception_code := "InvalidParameterValue",
                  exception_text := "Invalid request: " ++ request_type,
                  locator := Option.some "request" } })
  ∧ (∀ (service version request_type layers styles crs bbox : String)
        (width height : Int) (format : String) (transparent : Bool),
      service ≠ "WMS" →
        wms_get_map service version request_type layers styles crs bbox
            width height format transparent
          = .jsonError 400
              { exception_code := "InvalidParameterValue",
                exception_text := "Invalid service: " ++ service,
                locator := Option.some "service" })
  ∧ (∀ (version request_type layers styles crs bbox : String)
        (width height : Int) (format : String) (transparent : Bool),
      request_type ≠ "GetMap" →
        wms_get_map "WMS" version request_type layers styles crs bbox
            width height format transparent
          = .jsonError 400
              { exception_code := "InvalidParameterValue",
                exception_text := "Invalid request: " ++ request_type,
                locator := Option.some "request" })
  ∧ (∀ (service version request_type type_names : String) (count : Option Int)
        (bbox crs : Option String) (output_format : String),
      service ≠ "WFS" →
        wfs_get_feature service version request_type type_names count bbox crs
            output_format
          = .jsonError 400
              { exception_code := "InvalidParameterValue",
                exception_text := "Invalid service: " ++ service,
                locator := Option.some "service" })
  ∧ (∀ (version request_type type_names : String) (count : Option Int)
        (bbox crs : Option String) (output_format : String),
      request_type ≠ "GetFeature" →
        wfs_get_feature "WFS" version request_type type_names count bbox crs
            output_format
          = .jsonError 400
              { exception_code := "InvalidParameterValue",
                exception_text := "Invalid request: " ++ request_type,
                locator := Option.some "request" })
  ∧ wms_get_capabilities "WFS" "GetCapabilities" Option.none
      = { status := 400, format := WireFormat.xml,
          body := .exception
            { exception_code := "InvalidParameterValue",
              exception_text := "Invalid service: WFS",
              locator := Option.some "service" } } := by
  refine ⟨?_, ?_, ?_, ?_, ?_, ?_, ?_, ?_, ?_⟩
  · intro service request_type accept h
    simp only [wms_get_capabilities, capExceptionResponse]
    rw [if_pos h]
  · intro request_type accept h
    simp only [wms_get_capabilities, capExceptionResponse]
    rw [if_neg (by decide), if_pos h]
  · intro service request_type accept h
    simp only [wfs_get_capabilities, capExceptionResponse]
    rw [if_pos h]
  · intro request_type accept h
    simp only [wfs_get_capabilities, capExceptionResponse]
    rw [if_neg (by decide), if_pos h]
  · intro service version request_type layers styles crs bbox width height
      format transparent h
    simp only [wms_get_map]
    rw [if_pos h]
  · intro version request_type layers styles crs bbox width height format
      transparent h
    simp only [wms_get_map]
    rw [if_neg (by decide), if_pos h]
  · intro service version request_type type_names count bbox crs output_format h
    simp only [wfs_get_feature]
    rw [if_pos h]
  · intro version request_type type_names count bbox crs output_format h
    simp only [wfs_get_feature]
    rw [if_neg (by decide), if_pos h]
  · decide

/-- Witness for C5: the theorem applied at the concrete cross-service request
of the spec scenario and at a wrong-operation GetFeature request. -/
theorem C5_fail_fast_validation_witness :
    wms_get_capabilities "WFS" "GetCapabilities" Option.none
      = { status := 400, format := WireFormat.xml,
          body := .exception
            { exception_code := "InvalidParameterValue",
              exception_text := "Invalid service: WFS",
              locator := Option.some "service" } }
  ∧ wfs_get_feature "WFS" "2.0.0" "GetMap" "points_of_interest" Option.none
        Option.none Option.none "application/json"
      = .jsonError 400
          { exception_code := "InvalidParameterValue",
            exception_text := "Invalid request: GetMap",
            locator := Option.some "request" } :=
  ⟨C5_fail_fast_validation.1 "WFS" "GetCapabilities" Option.none (by decide),
   C5_fail_fast_validation.2.2.2.2.2.2.2.1 "2.0.0" "GetMap"
     "points_of_interest" Option.none Option.none Option.none
     "application/json" (by decide)⟩

/-- C2 counterexample: a GetFeature request whose single type name
`unknown_type` resolves to no feature type is answered with a successful,
empty FeatureCollection — not with a protocol exception. -/
theorem C2_counterexample :
    pyStrIn "points_of_interest" "unknown_type" = false
  ∧ pyStrIn "boundaries" "unknown_type" = false
  ∧ WFSService.get_feature
      { service := "WFS", version := "2.0.0", type_names := "unknown_type",
        count := Option.none, bbox := Option.none, crs := Option.none,
        output_format := "application/json" }
      = .ok { type := "FeatureCollection", features := [] } := by
  decide

/-- C2 (amended): type names are never validated against the feature-type
registry; a GetFeature request whose `type_names` matches no known feature
type (no substring hit for either sample type) succeeds with an empty
FeatureCollection instead of failing with a `ProtocolException`. -/
theorem C2_unknown_type_names_amended
    (tn : String) (count : Option Int)
    (h1 : pyStrIn "points_of_interest" tn = false)
    (h2 : pyStrIn "boundaries" tn = false) :
    WFSService.get_feature
      { service := "WFS", version := "2.0.0", type_names := tn,
        count := count, bbox := Option.none, crs := Option.none,
        output_format := "application/json" }
      = .ok { type := "FeatureCollection", features := [] } := by
  simp only [WFSService.get_feature, pyTruthyStr, sampleFeatures, h1, h2]
  rw [if_neg (by simp), if_neg (by simp [SUPPORTED_WFS_FORMATS]),
    if_neg (by simp [pyTruthyStr])]
  cases count with
  | none => rfl
  | some c => simp [applyCount, pySliceTo]

/-- Witness for C2: the amended theorem applied to `type_names=unknown_type`
with a count of 5. -/
theorem C2_unknown_type_names_amended_witness :
    WFSService.get_feature
      { service := "WFS", version := "2.0.0", type_names := "unknown_type",
        count := Option.some 5, bbox := Option.none, crs := Option.none,
        output_format := "application/json" }
      = .ok { type := "FeatureCollection", features := [] } :=
  C2_unknown_type_names_amended "unknown_type" (Option.some 5) (by decide)
    (by decide)

/-- C4 counterexample: with `count=0` (set, but falsy in Python) and two
selected features, the result keeps both features instead of being the first
`0` elements of the list. -/
theorem C4_counterexample :
    WFSService.get_feature
      { service := "WFS", version := "2.0.0",
        type_names := "points_of_interest", count := Option.some 0,
        bbox := Option.none, crs := Option.none,
        output_format := "application/json" }
      = .ok { type := "FeatureCollection",
              features := [ empireStateBuilding, statueOfLiberty] }
  ∧ [ empireStateBuilding, statueOfLiberty].length > 0
  ∧ [ empireStateBuilding, statueOfLiberty]
      ≠ List.take 0 [ empireStateBuilding, statueOfLiberty] := by
  decide

/-- C4 (amended): for a positive `count`, truncation is exactly the prefix
`List.take count` of the feature list in its existing order (also when the
list is not longer than `count`); e.g. `count=1` over `points_of_interest`
deterministically returns the first sample feature.  A `count` of `0` is
falsy in Python and performs no truncation at all. -/
theorem C4_count_truncation_amended :
    (∀ (c : Int) (fs : List GeoJSONFeature), 0 < c →
      applyCount (Option.some c) fs = fs.take c.toNat)
  ∧ WFSService.get_feature
      { service := "WFS", version := "2.0.0",
        type_names := "points_of_interest", count := Option.some 1,
        bbox := Option.none, crs := Option.none,
        output_format := "application/json" }
      = .ok { type := "FeatureCollection",
              features := [ empireStateBuilding] } := by
  refine ⟨?_, by decide⟩
  intro c fs hc
  exact applyCount_pos c fs hc

/-- Witness for C4: the amended theorem applied at `count=1` over the two
points-of-interest features. -/
theorem C4_count_truncation_amended_witness :
    applyCount (Option.some 1) [ empireStateBuilding, statueOfLiberty]
      = [ empireStateBuilding]
  ∧ WFSService.get_feature
      { service := "WFS", version := "2.0.0",
        type_names := "points_of_interest", count := Option.some 1,
        bbox := Option.none, crs := Option.none,
        output_format := "application/json" }
      = .ok { type := "FeatureCollection",
              features := [ empireStateBuilding] } :=
  ⟨C4_count_truncation_amended.1 1 [ empireStateBuilding, statueOfLiberty]
      (by decide),
   C4_count_truncation_amended.2⟩

/-- C6 counterexample: a GetFeature request with the given (but empty) CRS
`""` — which is not in the supported CRS list — succeeds instead of failing
with `InvalidCRS`, because the empty string is falsy and skips the check. -/
theorem C6_counterexample :
    Option.some "" ≠ (Option.none : Option String)
  ∧ ("" ∈ SUPPORTED_CRS) = False
  ∧ WFSService.get_feature
      { service := "WFS", version := "2.0.0",
        type_names := "points_of_interest", count := Option.none,
        bbox := Option.none, crs := Option.some "",
        output_format := "application/json" }
      = .ok { type := "FeatureCollection",
              features := [ empireStateBuilding, statueOfLiberty] } := by
  refine ⟨by decide, by simp [SUPPORTED_CRS], by decide⟩

/-- C6 (amended): a GetMap request whose `crs` is unsupported fails with
exactly `InvalidCRS` at locator `"GetMap"`, and a GetFeature request whose
given `crs` is non-empty and unsupported fails with exactly `InvalidCRS` at
locator `"GetFeature"`; a given-but-empty `crs` is falsy and skips the check
entirely. -/
theorem C6_invalid_crs_amended :
    (∀ request : WMSGetMapRequest, request.crs ∉ SUPPORTED_CRS →
      WMSService.get_map request
        = .error
          { exception_code := "InvalidCRS",
            exception_text := "Unsupported CRS: " ++ request.crs,
            locator := Option.some "GetMap" })
  ∧ (∀ (request : WFSGetFeatureRequest) (c : String),
      request.crs = Option.some c → c ≠ "" → c ∉ SUPPORTED_CRS →
      WFSService.get_feature request
        = .error
          { exception_code := "InvalidCRS",
            exception_text := "Unsupported CRS: " ++ c,
            locator := Option.some "GetFeature" }) := by
  constructor
  · intro request h
    simp only [WMSService.get_map]
    rw [if_pos h]
  · intro request c hc hne h
    simp only [WFSService.get_feature, hc]
    rw [if_pos ⟨by simp [pyTruthyStr, hne], by simpa using h⟩]
    simp

/-- Witness for C6: the amended theorem applied at the unsupported CRS
`EPSG:9999` for both operations. -/
theorem C6_invalid_crs_amended_witness :
    WMSService.get_map
      { service := "WMS", version := "1.3.0", layers := "basemap",
        styles := "", crs := "EPSG:9999", bbox := "-180,-90,180,90",
        width := 256, height := 256, format := "image/png",
        transparent := false }
      = .error
        { exception_code := "InvalidCRS",
          exception_text := "Unsupported CRS: EPSG:9999",
          locator := Option.some "GetMap" }
  ∧ WFSService.get_feature
      { service := "WFS", version := "2.0.0",
        type_names := "points_of_interest", count := Option.none,
        bbox := Option.none, crs := Option.some "EPSG:9999",
        output_format := "application/json" }
      = .error
        { exception_code := "InvalidCRS",
          exception_text := "Unsupported CRS: EPSG:9999",
          locator := Option.some "GetFeature" } :=
  ⟨C6_invalid_crs_amended.1 _ (by decide),
   C6_invalid_crs_amended.2 _ "EPSG:9999" rfl (by decide) (by decide)⟩

/-- C9: GetFeature selects feature types by raw substring containment on
`type_names` — for every request (no bbox) the returned list is the
points-of-interest block (iff `"points_of_interest"` occurs as a substring)
followed by the boundaries block (iff `"boundaries"` occurs); in particular
`type_names=my_points_of_interest_2` returns the two points-of-interest
features, and listing `boundaries` before `points_of_interest` still returns
the points-of-interest features first. -/
theorem C9_substring_type_selection :
    (∀ tn : String,
      WFSService.get_feature
        { service := "WFS", version := "2.0.0", type_names := tn,
          count := Option.none, bbox := Option.none, crs := Option.none,
          output_format := "application/json" }
        = .ok { type := "FeatureCollection",
                features :=
                  (if pyStrIn "points_of_interest" tn = true then
                    [ empireStateBuilding, statueOfLiberty] else [])
                  ++ (if pyStrIn "boundaries" tn = true then
                    [ manhattanBoundary] else []) })
  ∧ WFSService.get_feature
      { service := "WFS", version := "2.0.0",
        type_names := "my_points_of_interest_2", count := Option.none,
        bbox := Option.none, crs := Option.none,
        output_format := "application/json" }
      = .ok { type := "FeatureCollection",
              features := [ empireStateBuilding, statueOfLiberty] }
  ∧ WFSService.get_feature
      { service := "WFS", version := "2.0.0",
        type_names := "boundaries,points_of_interest", count := Option.none,
        bbox := Option.none, crs := Option.none,
        output_format := "application/json" }
      = .ok { type := "FeatureCollection",
              features :=
                [ empireStateBuilding, statueOfLiberty, manhattanBoundary] } := by
  refine ⟨?_, by decide, by decide⟩
  intro tn
  simp only [WFSService.get_feature, sampleFeatures, applyCount]
  rw [if_neg (by simp [pyTruthyStr]), if_neg (by simp [SUPPORTED_WFS_FORMATS]),
    if_neg (by simp [pyTruthyStr])]

/-- C3 counterexample: the spec scenario `type_names=points_of_interest`,
`bbox=-74.1,40.7,-73.9,40.8` does not return the Empire State Building alone:
the filter loop subscripts a pydantic geometry model and the request fails
with `OperationProcessingFailed`; moreover the Statue of Liberty coordinates
lie inside that bbox, so even the intended inclusive filter would keep both
points. -/
theorem C3_counterexample :
    WFSService.get_feature
      { service := "WFS", version := "2.0.0",
        type_names := "points_of_interest", count := Option.none,
        bbox := Option.some "-74.1,40.7,-73.9,40.8", crs := Option.none,
        output_format := "application/json" }
      = .error
        { exception_code := "OperationProcessingFailed",
          exception_text := "Error processing GetFeature request: \x27GeoJSONGeometry\x27 object is not subscriptable",
          locator := Option.some "GetFeature" }
  ∧ (mkRat (-741) 10 ≤ mkRat (-74013961) 1000000
      ∧ mkRat (-74013961) 1000000 ≤ mkRat (-739) 10
      ∧ mkRat 407 10 ≤ mkRat 40704543 1000000
      ∧ mkRat 40704543 1000000 ≤ mkRat 408 10) := by
  refine ⟨by decide, by decide, by decide, by decide, by decide⟩

/-- C3 (amended): the point-in-bbox test of the filter loop keeps a Point
inside `[minX,maxX]×[minY,maxY]` inclusive and keeps every non-Point feature;
but the loop as written subscripts pydantic geometry models, so any request
with a truthy bbox and at least one selected feature fails with
`OperationProcessingFailed` at locator `"GetFeature"`; and in the concrete
scenario the intended test would keep both sample points, the Statue of
Liberty included. -/
theorem C3_bbox_filter_amended :
    (∀ (a b c d lon lat : ℚ) (props : List (String × PropV)),
      (bboxKeep
          [ PyFloat.finite a, PyFloat.finite b, PyFloat.finite c,
            PyFloat.finite d]
          { type := "Feature", geometry := .point lon lat,
            properties := props } = true)
        ↔ (a ≤ lon ∧ lon ≤ c ∧ b ≤ lat ∧ lat ≤ d))
  ∧ (∀ (bb : List PyFloat) (f : GeoJSONFeature),
      f.geometry.isPoint = false → bboxKeep bb f = true)
  ∧ (∀ (tn : String) (count : Option Int) (s : String) (bb : List PyFloat),
      parse_bbox_string s = .ok bb → s ≠ "" → sampleFeatures tn ≠ [] →
      WFSService.get_feature
        { service := "WFS", version := "2.0.0", type_names := tn,
          count := count, bbox := Option.some s, crs := Option.none,
          output_format := "application/json" }
        = .error
          { exception_code := "OperationProcessingFailed",
            exception_text := "Error processing GetFeature request: \x27GeoJSONGeometry\x27 object is not subscriptable",
            locator := Option.some "GetFeature" })
  ∧ (bboxKeep
      [ PyFloat.finite (mkRat (-741) 10), PyFloat.finite (mkRat 407 10),
        PyFloat.finite (mkRat (-739) 10), PyFloat.finite (mkRat 408 10)]
      empireStateBuilding = true
    ∧ bboxKeep
      [ PyFloat.finite (mkRat (-741) 10), PyFloat.finite (mkRat 407 10),
        PyFloat.finite (mkRat (-739) 10), PyFloat.finite (mkRat 408 10)]
      statueOfLiberty = true) := by
  refine ⟨?_, ?_, ?_, by decide, by decide⟩
  · intro a b c d lon lat props
    simp [bboxKeep, PyFloat.le, and_assoc]
  · intro bb f h
    rcases f with ⟨t, geo, props⟩
    cases geo with
    | point lon lat => simp [Geometry.isPoint] at h
    | polygon rings => rfl
  · intro tn count s bb h hs hne
    simp only [WFSService.get_feature, Option.getD]
    rw [if_neg (by simp [pyTruthyStr]),
      if_neg (by simp [SUPPORTED_WFS_FORMATS]),
      if_pos (by simp [pyTruthyStr, hs]), h]
    cases hsf : sampleFeatures tn with
    | nil => exact absurd hsf hne
    | cons f fs => rfl

/-- Witness for C3: the amended theorem applied at the spec's concrete
request (already-parsed bbox supplied) and at the Polygon sample feature. -/
theorem C3_bbox_filter_amended_witness :
    WFSService.get_feature
      { service := "WFS", version := "2.0.0",
        type_names := "points_of_interest", count := Option.none,
        bbox := Option.some "-74.1,40.7,-73.9,40.8", crs := Option.none,
        output_format := "application/json" }
      = .error
        { exception_code := "OperationProcessingFailed",
          exception_text := "Error processing GetFeature request: \x27GeoJSONGeometry\x27 object is not subscriptable",
          locator := Option.some "GetFeature" }
  ∧ bboxKeep [] manhattanBoundary = true :=
  ⟨C3_bbox_filter_amended.2.2.1 "points_of_interest" Option.none
      "-74.1,40.7,-73.9,40.8"
      [ PyFloat.finite (mkRat (-741) 10), PyFloat.finite (mkRat 407 10),
        PyFloat.finite (mkRat (-739) 10), PyFloat.finite (mkRat 408 10)]
      (by decide) (by decide) (by decide),
   C3_bbox_filter_amended.2.1 [] manhattanBoundary (by decide)⟩

/-- C7 counterexample: the 3-token bbox `1,2,3` in a GetMap request fails,
but with `OperationProcessingFailed` at locator `"GetMap"` (the `ValueError`
caught by the broad handler), not with an error at locator `"bbox"` — no
code path in the repository attaches the locator `"bbox"`. -/
theorem C7_counterexample :
    WMSService.get_map
      { service := "WMS", version := "1.3.0", layers := "basemap",
        styles := "", crs := "EPSG:4326", bbox := "1,2,3", width := 256,
        height := 256, format := "image/png", transparent := false }
      = .error
        { exception_code := "OperationProcessingFailed",
          exception_text := "Error processing GetMap request: Invalid bbox format: 1,2,3. Expected format: min_lon,min_lat,max_lon,max_lat",
          locator := Option.some "GetMap" }
  ∧ Option.some "GetMap" ≠ Option.some "bbox" := by
  refine ⟨by decide, by decide⟩

/-- C7 (amended): bbox parsing succeeds exactly when the comma-split yields 4
tokens and every token converts with `float`, giving those four values; both
failure modes raise one `ValueError` whose message names the bbox, and inside
GetMap that error surfaces as `OperationProcessingFailed` at locator
`"GetMap"` (not `"bbox"`). -/
theorem C7_bbox_parse_amended :
    (∀ s : String,
      (∃ b, parse_bbox_string s = .ok b)
        ↔ ((pySplitComma s).length = 4
            ∧ (pySplitComma s).all
                (fun t => (pyFloatOfString t).isSome) = true))
  ∧ (∀ (s : String) (b : List PyFloat), parse_bbox_string s = .ok b →
      mapFloats (pySplitComma s) = Option.some b)
  ∧ (∀ (s msg : String), parse_bbox_string s = .error msg →
      msg = "Invalid bbox format: " ++ s ++
        ". Expected format: min_lon,min_lat,max_lon,max_lat")
  ∧ (∀ (request : WMSGetMapRequest) (msg : String),
      request.crs ∈ SUPPORTED_CRS → request.format ∈ SUPPORTED_WMS_FORMATS →
      parse_bbox_string request.bbox = .error msg →
      WMSService.get_map request
        = .error
          { exception_code := "OperationProcessingFailed",
            exception_text := "Error processing GetMap request: " ++ msg,
            locator := Option.some "GetMap" }) := by
  refine ⟨?_, ?_, ?_, ?_⟩
  · intro s
    constructor
    · rintro ⟨b, hb⟩
      simp only [parse_bbox_string] at hb
      split at hb
      · cases hb
      · rename_i v hm
        split at hb
        · cases hb
        · rename_i hlen
          cases hb
          refine ⟨by rw [← mapFloats_length hm]; omega, ?_⟩
          rw [← mapFloats_isSome, hm]
          rfl
    · rintro ⟨hlen, hall⟩
      have hsome : (mapFloats (pySplitComma s)).isSome = true := by
        rw [mapFloats_isSome]; exact hall
      cases hm : mapFloats (pySplitComma s) with
      | none => rw [hm] at hsome; cases hsome
      | some v =>
        refine ⟨v, ?_⟩
        simp only [parse_bbox_string, hm]
        rw [if_neg (by rw [mapFloats_length hm, hlen]; omega)]
  · intro s b hb
    simp only [parse_bbox_string] at hb
    split at hb
    · cases hb
    · rename_i v hm
      split at hb
      · cases hb
      · cases hb; exact hm
  · intro s msg h
    simp only [parse_bbox_string] at h
    split at h
    · cases h; rfl
    · rename_i v hm
      split at h
      · cases h; rfl
      · cases h
  · intro request msg h1 h2 h3
    simp only [WMSService.get_map]
    rw [if_neg (not_not_intro h1), if_neg (not_not_intro h2), h3]

/-- Witness for C7: the amended theorem applied at the concrete request with
bbox `1,2,3` and at the well-formed bbox string of the spec scenario. -/
theorem C7_bbox_parse_amended_witness :
    WMSService.get_map
      { service := "WMS", version := "1.3.0", layers := "basemap",
        styles := "", crs := "EPSG:4326", bbox := "1,2,3", width := 256,
        height := 256, format := "image/png", transparent := false }
      = .error
        { exception_code := "OperationProcessingFailed",
          exception_text := "Error processing GetMap request: Invalid bbox format: 1,2,3. Expected format: min_lon,min_lat,max_lon,max_lat",
          locator := Option.some "GetMap" }
  ∧ mapFloats (pySplitComma "-180,-90,180,90")
      = Option.some
        [ PyFloat.finite (mkRat (-180) 1), PyFloat.finite (mkRat (-90) 1),
          PyFloat.finite (mkRat 180 1), PyFloat.finite (mkRat 90 1)] :=
  ⟨C7_bbox_parse_amended.2.2.2
      { service := "WMS", version := "1.3.0", layers := "basemap",
        styles := "", crs := "EPSG:4326", bbox := "1,2,3", width := 256,
        height := 256, format := "image/png", transparent := false }
      "Invalid bbox format: 1,2,3. Expected format: min_lon,min_lat,max_lon,max_lat"
      (by decide) (by decide) (by decide),
   C7_bbox_parse_amended.2.1 "-180,-90,180,90"
      [ PyFloat.finite (mkRat (-180) 1), PyFloat.finite (mkRat (-90) 1),
        PyFloat.finite (mkRat 180 1), PyFloat.finite (mkRat 90 1)]
      (by decide)⟩

/-- Changing a supported `output_format` to another supported one does not
change the outcome of `WFSService.get_feature` at all: the format is only
consulted by the allow-list check. -/
theorem get_feature_format_swap (tn : String) (count : Option Int)
    (bbox crs : Option String) (fmt : String)
    (h : fmt ∈ SUPPORTED_WFS_FORMATS) :
    WFSService.get_feature
      { service := "WFS", version := "2.0.0", type_names := tn,
        count := count, bbox := bbox, crs := crs, output_format := fmt }
      = WFSService.get_feature
        { service := "WFS", version := "2.0.0", type_names := tn,
          count := count, bbox := bbox, crs := crs,
          output_format := "application/json" } := by
  simp only [WFSService.get_feature]
  rw [if_neg (not_not_intro h),
    if_neg (not_not_intro (by simp [SUPPORTED_WFS_FORMATS]))]

/-- C10: for every accepted `output_format` (JSON or not), the GetFeature
endpoint's behavior is identical to the `application/json` one, and every
successful request is answered with the JSON dictionary serialization of the
FeatureCollection regardless of the format that was requested. -/
theorem C10_output_format_ignored :
    ∀ (tn : String) (count : Option Int) (bbox crs : Option String)
      (fmt : String), fmt ∈ SUPPORTED_WFS_FORMATS →
      (wfs_get_feature "WFS" "2.0.0" "GetFeature" tn count bbox crs fmt
        = wfs_get_feature "WFS" "2.0.0" "GetFeature" tn count bbox crs
            "application/json")
    ∧ (∀ fc : GeoJSONFeatureCollection,
        WFSService.get_feature
          { service := "WFS", version := "2.0.0", type_names := tn,
            count := count, bbox := bbox, crs := crs, output_format := fmt }
          = .ok fc →
        wfs_get_feature "WFS" "2.0.0" "GetFeature" tn count bbox crs fmt
          = .okBody fc.dict) := by
  intro tn count bbox crs fmt h
  constructor
  · simp only [wfs_get_feature]
    rw [get_feature_format_swap tn count bbox crs fmt h]
    cases WFSService.get_feature
        { service := "WFS", version := "2.0.0", type_names := tn,
          count := count, bbox := bbox, crs := crs,
          output_format := "application/json" } with
    | error e => rfl
    | ok fc => simp only [ite_self]
  · intro fc hfc
    simp only [wfs_get_feature]
    rw [if_neg (by decide), if_neg (by decide), hfc]
    simp only [ite_self]

/-- Witness for C10: the theorem applied at `output_format=csv` over
`points_of_interest`; validation passes and the body is the JSON dict. -/
theorem C10_output_format_ignored_witness :
    (wfs_get_feature "WFS" "2.0.0" "GetFeature" "points_of_interest"
        Option.none Option.none Option.none "csv"
      = wfs_get_feature "WFS" "2.0.0" "GetFeature" "points_of_interest"
          Option.none Option.none Option.none "application/json")
  ∧ wfs_get_feature "WFS" "2.0.0" "GetFeature" "points_of_interest"
      Option.none Option.none Option.none "csv"
      = .okBody (GeoJSONFeatureCollection.dict
          { type := "FeatureCollection",
            features := [ empireStateBuilding, statueOfLiberty] }) :=
  ⟨(C10_output_format_ignored "points_of_interest" Option.none Option.none
      Option.none "csv" (by decide)).1,
   (C10_output_format_ignored "points_of_interest" Option.none Option.none
      Option.none "csv" (by decide)).2
     { type := "FeatureCollection",
       features := [ empireStateBuilding, statueOfLiberty] }
     (by decide)⟩

/-- C1 counterexample: for the same header `application/json, application/xml`
a successful WMS GetCapabilities response is XML, but an exception response
(here: wrong service) is JSON — the exception path ignores the
`application/xml` part of the header, so the formats differ. -/
theorem C1_counterexample :
    (wms_get_capabilities "WMS" "GetCapabilities"
        (Option.some "application/json, application/xml")).status = 200
  ∧ (wms_get_capabilities "WMS" "GetCapabilities"
        (Option.some "application/json, application/xml")).format
      = WireFormat.xml
  ∧ (wms_get_capabilities "WFS" "GetCapabilities"
        (Option.some "application/json, application/xml")).status = 400
  ∧ (wms_get_capabilities "WFS" "GetCapabilities"
        (Option.some "application/json, application/xml")).format
      = WireFormat.json
  ∧ WireFormat.json ≠ WireFormat.xml := by
  refine ⟨by decide, by decide, by decide, by decide, by decide⟩

/-- C1 (amended): the two capabilities endpoints negotiate success responses
by the default-XML rule (JSON exactly when a non-empty `Accept` contains
`application/json` and not `application/xml`), but exception responses by a
different rule: JSON whenever a non-empty `Accept` contains
`application/json`, regardless of `application/xml`; a missing `Accept`
yields XML on both paths.  Hence for `Accept: application/json,
application/xml` a success is XML while an exception is JSON. -/
theorem C1_negotiation_amended :
    (∀ a : String,
      ((wms_get_capabilities "WMS" "GetCapabilities" (Option.some a)).format
          = WireFormat.json
        ↔ (a ≠ "" ∧ pyStrIn "application/json" a = true
            ∧ pyStrIn "application/xml" a = false))
      ∧ ((wfs_get_capabilities "WFS" "GetCapabilities" (Option.some a)).format
          = WireFormat.json
        ↔ (a ≠ "" ∧ pyStrIn "application/json" a = true
            ∧ pyStrIn "application/xml" a = false)))
  ∧ ((wms_get_capabilities "WMS" "GetCapabilities" Option.none).format
        = WireFormat.xml
    ∧ (wfs_get_capabilities "WFS" "GetCapabilities" Option.none).format
        = WireFormat.xml)
  ∧ (∀ (service request_type a : String), service ≠ "WMS" →
      (wms_get_capabilities service request_type (Option.some a)).status = 400
      ∧ ((wms_get_capabilities service request_type (Option.some a)).format
            = WireFormat.json
          ↔ (a ≠ "" ∧ pyStrIn "application/json" a = true)))
  ∧ (∀ (service request_type a : String), service ≠ "WFS" →
      (wfs_get_capabilities service request_type (Option.some a)).status = 400
      ∧ ((wfs_get_capabilities service request_type (Option.some a)).format
            = WireFormat.json
          ↔ (a ≠ "" ∧ pyStrIn "application/json" a = true)))
  ∧ (∀ (service request_type : String), service ≠ "WMS" →
      (wms_get_capabilities service request_type Option.none).format
        = WireFormat.xml)
  ∧ (∀ (service request_type : String), service ≠ "WFS" →
      (wfs_get_capabilities service request_type Option.none).format
        = WireFormat.xml) := by
  refine ⟨?_, ⟨by decide, by decide⟩, ?_, ?_, ?_, ?_⟩
  · intro a
    constructor
    · by_cases hA : a = ""
      · subst hA
        simp [wms_get_capabilities, capSuccessFormat, pyTruthyStr]
      · cases hJ : pyStrIn "application/json" a <;>
          cases hX : pyStrIn "application/xml" a <;>
          simp [wms_get_capabilities, capSuccessFormat, pyTruthyStr, hA, hJ,
            hX]
    · by_cases hA : a = ""
      · subst hA
        simp [wfs_get_capabilities, capSuccessFormat, pyTruthyStr]
      · cases hJ : pyStrIn "application/json" a <;>
          cases hX : pyStrIn "application/xml" a <;>
          simp [wfs_get_capabilities, capSuccessFormat, pyTruthyStr, hA, hJ,
            hX]
  · intro service request_type a hs
    simp only [wms_get_capabilities]
    rw [if_pos hs]
    refine ⟨rfl, ?_⟩
    by_cases hA : a = ""
    · subst hA
      simp [capExceptionResponse, capExceptionFormat, pyTruthyStr]
    · cases hJ : pyStrIn "application/json" a <;>
        simp [capExceptionResponse, capExceptionFormat, pyTruthyStr, hA, hJ]
  · intro service request_type a hs
    simp only [wfs_get_capabilities]
    rw [if_pos hs]
    refine ⟨rfl, ?_⟩
    by_cases hA : a = ""
    · subst hA
      simp [capExceptionResponse, capExceptionFormat, pyTruthyStr]
    · cases hJ : pyStrIn "application/json" a <;>
        simp [capExceptionResponse, capExceptionFormat, pyTruthyStr, hA, hJ]
  · intro service request_type hs
    simp only [wms_get_capabilities]
    rw [if_pos hs]
    rfl
  · intro service request_type hs
    simp only [wfs_get_capabilities]
    rw [if_pos hs]
    rfl

/-- Witness for C1: the amended theorem applied at the failing-service request
carrying the ambiguous header, and at a missing header. -/
theorem C1_negotiation_amended_witness :
    ((wms_get_capabilities "WFS" "GetCapabilities"
        (Option.some "application/json, application/xml")).status = 400
    ∧ ((wms_get_capabilities "WFS" "GetCapabilities"
          (Option.some "application/json, application/xml")).format
        = WireFormat.json
      ↔ ("application/json, application/xml" ≠ ""
          ∧ pyStrIn "application/json" "application/json, application/xml"
              = true)))
  ∧ (wms_get_capabilities "WFS" "GetCapabilities" Option.none).format
      = WireFormat.xml :=
  ⟨C1_negotiation_amended.2.2.1 "WFS" "GetCapabilities"
      "application/json, application/xml" (by decide),
   C1_negotiation_amended.2.2.2.2.1 "WFS" "GetCapabilities" (by decide)⟩
